import Mathlib

/-!
Verification of the orchestration layer of `desktop_notifier`
(`src/desktop_notifier/main.py`) against its natural-language specification.

The Python module is shallowly embedded: pure decision procedures become Lean
functions, the mutable `DesktopNotifier` instance state becomes an explicit
`NotifierState` record threaded through the operations, and the platform
backend (declared in `base.py`, which is not part of the sources at hand)
becomes an oracle `BackendBehavior` describing the results of successive
backend invocations.
-/

/-! ## Notification data model (from `base.py`, absent from the sources) -/

/-- Modelled from the spec: `Urgency` from `base.py` (absent from the
sources); spec section 3: `urgency ∈ {Low, Normal, Critical}`. -/
inductive Urgency where
  | Low
  | Normal
  | Critical
deriving DecidableEq

/-- Modelled from the spec: `Icon` from `base.py` (absent from the sources);
spec section 3: "tagged union of {named theme icon, filesystem path, URI};
at most one variant populated". -/
inductive Icon where
  | name (s : String)
  | path (p : String)
  | uri (u : String)
deriving DecidableEq

/-- Modelled from the spec: `Sound` from `base.py` (absent from the sources);
spec section 3: "a tagged reference to a system or custom sound;
`DEFAULT_SOUND` is a sentinel meaning platform default". -/
inductive Sound where
  | systemDefault
  | named (s : String)
  | file (p : String)
deriving DecidableEq

/-- Modelled from the spec: `Attachment` from `base.py` (absent from the
sources); spec section 3: "tagged union {uri, path} pointing to displayable
media". -/
inductive Attachment where
  | uri (u : String)
  | path (p : String)
deriving DecidableEq

/-- Modelled from the spec: `Button` from `base.py` (absent from the
sources); spec section 3: "each with a display label and an on-click
callback".  Callbacks are opaque to this layer; they are modelled as opaque
numeric tokens so that notification values remain comparable. -/
structure Button where
  title : String
  onPressed : Option Nat := none
deriving DecidableEq

/-- Modelled from the spec: `ReplyField` from `base.py` (absent from the
sources); spec section 3: "optional, enabling free-text response with its
own callback". -/
structure ReplyField where
  title : String
  buttonTitle : String
  onReplied : Option Nat := none
deriving DecidableEq

/-- Modelled from the spec: `Capability` from `base.py` (absent from the
sources); spec section 3: "closed enumeration of optional features (e.g.,
buttons, reply field, sound, attachment, on-dismissed callback, threading,
timeout)". -/
inductive Capability where
  | buttons
  | replyField
  | sound
  | attachment
  | onClicked
  | onDismissed
  | threading
  | timeoutFeature
deriving DecidableEq

/-- Modelled from the spec: the `Notification` value type from `base.py`
(absent from the sources); spec section 3.  `identifier` is the opaque
backend-assigned token, absent until the backend accepts the notification.
Callback slots hold opaque numeric tokens, as in `Button`. -/
structure Notification where
  title : String
  message : String
  urgency : Urgency := Urgency.Normal
  icon : Option Icon := none
  buttons : List Button := []
  replyField : Option ReplyField := none
  onClicked : Option Nat := none
  onDismissed : Option Nat := none
  attachment : Option Attachment := none
  sound : Option Sound := none
  thread : Option String := none
  timeout : Int := -1
  identifier : Option String := none
deriving DecidableEq

/-! ## Version comparison (`packaging.version.Version` on release segments)

`main.py` compares `macos_version >= Version("10.14")` and
`Version(platform.version()) >= Version("10.0.10240")`.  Only plain
dotted-numeral release versions occur, for which `packaging` compares the
release tuples componentwise, treating missing trailing components as
zero (`Version("10.14") == Version("10.14.0")`). -/

/-- Componentwise comparison of release tuples; absent trailing components
count as zero, mirroring `packaging.version` on plain release versions. -/
def versionCompare : List Nat → List Nat → Ordering
  | [], [] => Ordering.eq
  | [], b :: bs =>
    if (b :: bs).all (· = 0) then Ordering.eq else Ordering.lt
  | a :: as, [] =>
    if (a :: as).all (· = 0) then Ordering.eq else Ordering.gt
  | a :: as, b :: bs =>
    if a < b then Ordering.lt
    else if b < a then Ordering.gt
    else versionCompare as bs

/-- `a >= b` on release versions. -/
def versionGe (a b : List Nat) : Bool :=
  versionCompare a b ≠ Ordering.lt

/-! ## Backend selection (`get_implementation_class`, main.py lines 65-112) -/

/-- The four concrete backend classes a selection can produce. -/
inductive BackendClass where
  | CocoaNotificationCenter
  | DBusDesktopNotifier
  | WinRTDesktopNotifier
  | DummyNotificationCenter
deriving DecidableEq

/-- The platform facts `get_implementation_class` can observe.  `system` is
`platform.system()`; `osVersion` is `platform.version()`; `macosVersion`,
`isBundle` and `isSignedBundle` come from `macos_support`.  The record also
carries platform facts the selector does not read (`machine`, `node`, from
the same `platform` module), so that independence from them is expressible. -/
structure PlatformEnv where
  system : String
  osVersion : List Nat
  macosVersion : List Nat
  isBundle : Bool
  isSignedBundle : Bool
  machine : String
  node : String
deriving DecidableEq

/-- `get_implementation_class` (main.py lines 65-112).  On Darwin the code
requires `macos_version >= Version("10.14")` and `is_bundle()`; an unsigned
bundle only triggers `logger.warning`, it does not change the selection.
Logging is omitted from the embedding as it carries no data flow. -/
def get_implementation_class (env : PlatformEnv) : BackendClass :=
  if env.system = "Darwin" then
    let has_unusernotificationcenter := versionGe env.macosVersion [10, 14]
    if has_unusernotificationcenter && env.isBundle then
      BackendClass.CocoaNotificationCenter
    else
      BackendClass.DummyNotificationCenter
  else if env.system = "Linux" then
    BackendClass.DBusDesktopNotifier
  else if env.system = "Windows" && versionGe env.osVersion [10, 0, 10240] then
    BackendClass.WinRTDesktopNotifier
  else
    BackendClass.DummyNotificationCenter

/-- The decision table exactly as claim C2 words it: on macOS the native
Cocoa backend is selected only when the version threshold is met AND the
process runs inside a *signed* application bundle.  Stated from the claim's
words, to be compared with `get_implementation_class`. -/
def claimed_implementation_class (env : PlatformEnv) : BackendClass :=
  if env.system = "Darwin" then
    if versionGe env.macosVersion [10, 14] && env.isBundle && env.isSignedBundle then
      BackendClass.CocoaNotificationCenter
    else
      BackendClass.DummyNotificationCenter
  else if env.system = "Linux" then
    BackendClass.DBusDesktopNotifier
  else if env.system = "Windows" && versionGe env.osVersion [10, 0, 10240] then
    BackendClass.WinRTDesktopNotifier
  else
    BackendClass.DummyNotificationCenter

/-- A macOS environment at version 11.0, inside an app bundle whose
signature verification fails. -/
def unsignedBundleEnv : PlatformEnv :=
  { system := "Darwin"
    osVersion := [20, 6, 0]
    macosVersion := [11, 0]
    isBundle := true
    isSignedBundle := false
    machine := "arm64"
    node := "mac-host" }

/-- Claim C2 is false on the code: on macOS 11.0 inside an *unsigned* app
bundle, `get_implementation_class` still selects the native Cocoa backend
(the failed signature check only logs a warning), while the claim's decision
table demands the inert fallback backend. -/
theorem get_implementation_class_unsigned_bundle_uses_cocoa :
    get_implementation_class unsignedBundleEnv = BackendClass.CocoaNotificationCenter ∧
    claimed_implementation_class unsignedBundleEnv = BackendClass.DummyNotificationCenter := by
  constructor <;> rfl

/-- Claim C2, amended: `get_implementation_class` implements the decision
table with the bundle requirement but *without* the signing requirement on
macOS: Cocoa iff version ≥ 10.14 and running inside an app bundle (signed or
not); message-bus backend on Linux; WinRT on Windows at or above the version
threshold; the inert fallback backend in every other case. -/
theorem get_implementation_class_decision_table (env : PlatformEnv) :
    (env.system = "Darwin" → versionGe env.macosVersion [10, 14] = true →
      env.isBundle = true →
      get_implementation_class env = BackendClass.CocoaNotificationCenter) ∧
    (env.system = "Darwin" →
      (versionGe env.macosVersion [10, 14] = false ∨ env.isBundle = false) →
      get_implementation_class env = BackendClass.DummyNotificationCenter) ∧
    (env.system = "Linux" →
      get_implementation_class env = BackendClass.DBusDesktopNotifier) ∧
    (env.system = "Windows" → versionGe env.osVersion [10, 0, 10240] = true →
      get_implementation_class env = BackendClass.WinRTDesktopNotifier) ∧
    (env.system ≠ "Darwin" → env.system ≠ "Linux" →
      (env.system ≠ "Windows" ∨ versionGe env.osVersion [10, 0, 10240] = false) →
      get_implementation_class env = BackendClass.DummyNotificationCenter) := by
  refine ⟨?_, ?_, ?_, ?_, ?_⟩
  · intro hsys hver hbundle
    simp [get_implementation_class, hsys, hver, hbundle]
  · intro hsys hfail
    rcases hfail with h | h <;> simp [get_implementation_class, hsys, h]
  · intro hsys
    simp [get_implementation_class, hsys]
  · intro hsys hver
    simp [get_implementation_class, hsys, hver]
  · intro hd hl hw
    rcases hw with h | h <;> simp [get_implementation_class, hd, hl, h]

/-- Witness for the amended decision table: on a Linux environment the
message-bus backend is selected. -/
theorem get_implementation_class_decision_table_witness :
    get_implementation_class
      { system := "Linux", osVersion := [6, 1], macosVersion := [0],
        isBundle := false, isSignedBundle := false,
        machine := "x86_64", node := "pc" } = BackendClass.DBusDesktopNotifier :=
  (get_implementation_class_decision_table
    { system := "Linux", osVersion := [6, 1], macosVersion := [0],
      isBundle := false, isSignedBundle := false,
      machine := "x86_64", node := "pc" }).2.2.1 rfl

/-- Claim C8: backend selection is a deterministic function of the
(operating-system identifier, OS version, macOS version, bundle/signing
context) tuple: two environments that agree on those facts select the same
backend class, whatever their remaining platform facts (`machine`, `node`). -/
theorem implementation_class_depends_only_on_platform_tuple
    (e₁ e₂ : PlatformEnv)
    (hsys : e₁.system = e₂.system)
    (hosv : e₁.osVersion = e₂.osVersion)
    (hmacv : e₁.macosVersion = e₂.macosVersion)
    (hbundle : e₁.isBundle = e₂.isBundle)
    (hsigned : e₁.isSignedBundle = e₂.isSignedBundle) :
    get_implementation_class e₁ = get_implementation_class e₂ := by
  cases e₁
  cases e₂
  simp only at hsys hosv hmacv hbundle hsigned
  subst hsys hosv hmacv hbundle hsigned
  rfl

/-- Witness for claim C8 determinism: two Linux environments differing only
in machine architecture and host name select the same backend. -/
theorem implementation_class_depends_only_on_platform_tuple_witness :
    get_implementation_class
      { system := "Linux", osVersion := [6, 1], macosVersion := [0],
        isBundle := false, isSignedBundle := false,
        machine := "x86_64", node := "host-a" } =
    get_implementation_class
      { system := "Linux", osVersion := [6, 1], macosVersion := [0],
        isBundle := false, isSignedBundle := false,
        machine := "arm64", node := "host-b" } :=
  implementation_class_depends_only_on_platform_tuple
    { system := "Linux", osVersion := [6, 1], macosVersion := [0],
      isBundle := false, isSignedBundle := false,
      machine := "x86_64", node := "host-a" }
    { system := "Linux", osVersion := [6, 1], macosVersion := [0],
      isBundle := false, isSignedBundle := false,
      machine := "arm64", node := "host-b" }
    rfl rfl rfl rfl rfl

/-! ## Backend oracle and orchestrator state

`DesktopNotifier` (main.py lines 115-363) holds a backend instance
`self._impl` whose class is declared in `base.py` (absent from the sources).
The backend is modelled as an oracle giving the outcome of each successive
backend invocation; expected non-delivery is a successful call whose
assigned identifier is `none`, while a raised exception is `Except.error`
(per spec sections 4.1 and 6, ordinary failures never raise). -/

/-- An exception escaping a backend call. -/
inductive BackendError where
  | error (msg : String)
deriving DecidableEq

/-- Modelled from the spec: the behaviour of the `DesktopNotifierBase`
backend instance from `base.py` (absent from the sources), as an oracle over
invocation counts (spec section 4.1, Backend Contract).
`capabilitiesAt k` is the capability set returned by the k-th
`get_capabilities` query; `authResultAt k` the outcome of the k-th
`request_authorisation` call; `sendResultAt k n` the outcome of the k-th
`send` call when passed notification `n` — `Except.ok (some i)` assigns
identifier `i`, `Except.ok none` is expected non-delivery leaving the
identifier untouched. -/
structure BackendBehavior where
  capabilitiesAt : Nat → List Capability
  authResultAt : Nat → Except BackendError Bool
  sendResultAt : Nat → Notification → Except BackendError (Option String)

/-- The mutable state of one `DesktopNotifier` instance
(`__init__`, main.py lines 140-176): the default `app_icon`, the
`_did_request_authorisation` flag, the `_capabilities` cache, and the
private event loop's running state.  The three counters record how many
backend invocations of each kind have occurred; they index the
`BackendBehavior` oracle. -/
structure NotifierState where
  appIcon : Option Icon
  didRequestAuthorisation : Bool
  capabilities : Option (List Capability)
  loopRunning : Bool
  capQueryCount : Nat
  authCallCount : Nat
  sendCallCount : Nat
deriving DecidableEq

/-- State of a freshly constructed `DesktopNotifier`: no capability cache,
authorisation not yet requested, no backend invocations, private loop not
running. -/
def initialState (appIcon : Option Icon) : NotifierState :=
  { appIcon := appIcon
    didRequestAuthorisation := false
    capabilities := none
    loopRunning := false
    capQueryCount := 0
    authCallCount := 0
    sendCallCount := 0 }

/-! ## Capabilities (`get_capabilities`, main.py lines 357-363) -/

/-- Python truthiness of `self._capabilities` in
`if not self._capabilities:` — `None` and the *empty* frozenset are both
falsy. -/
def pyFalsyCaps : Option (List Capability) → Bool
  | none => true
  | some caps => caps.isEmpty

/-- `DesktopNotifier.get_capabilities` (main.py lines 357-363): queries the
backend when the cache is Python-falsy (absent *or empty*), stores the
result, and returns the cache. -/
def get_capabilities (b : BackendBehavior) (st : NotifierState) :
    List Capability × NotifierState :=
  if pyFalsyCaps st.capabilities then
    let caps := b.capabilitiesAt st.capQueryCount
    (caps, { st with capabilities := some caps,
                     capQueryCount := st.capQueryCount + 1 })
  else
    (st.capabilities.getD [], st)

/-- `n` successive calls of `get_capabilities` on the same instance,
collecting the returned capability sets. -/
def iterate_get_capabilities (b : BackendBehavior) :
    Nat → NotifierState → List (List Capability) × NotifierState
  | 0, st => ([], st)
  | n + 1, st =>
    let (r, st') := get_capabilities b st
    let (rs, st'') := iterate_get_capabilities b n st'
    (r :: rs, st'')

/-- A backend whose first capability query answers the empty set and whose
later queries answer `{buttons}`. -/
def emptyThenButtonsBackend : BackendBehavior :=
  { capabilitiesAt := fun k => if k = 0 then [] else [Capability.buttons]
    authResultAt := fun _ => Except.ok true
    sendResultAt := fun _ _ => Except.ok none }

/-- Claim C1 is false on the code: when the backend's first capability query
returns the empty set, the empty cache is Python-falsy, so a second
`get_capabilities` call queries the backend *again* — here the two calls
return different sets and the backend is queried twice. -/
theorem get_capabilities_empty_set_requeries :
    (iterate_get_capabilities emptyThenButtonsBackend 2
        (initialState none)).1 = [[], [Capability.buttons]] ∧
    (iterate_get_capabilities emptyThenButtonsBackend 2
        (initialState none)).2.capQueryCount = 2 := by
  constructor <;> rfl

/-- `get_capabilities` on a state caching a non-empty set returns the cache
and leaves the state unchanged. -/
theorem get_capabilities_cached_nonempty (b : BackendBehavior)
    (st : NotifierState) (c : List Capability)
    (hc : st.capabilities = some c) (hne : c ≠ []) :
    get_capabilities b st = (c, st) := by
  simp [get_capabilities, pyFalsyCaps, hc, List.isEmpty_iff, hne]

/-- Iterating `get_capabilities` from a state caching a non-empty set keeps
returning the cache without touching the state. -/
theorem iterate_get_capabilities_cached (b : BackendBehavior)
    (st : NotifierState) (c : List Capability)
    (hc : st.capabilities = some c) (hne : c ≠ []) (n : Nat) :
    iterate_get_capabilities b n st = (List.replicate n c, st) := by
  induction n with
  | zero => rfl
  | succ m ih =>
    simp [iterate_get_capabilities,
          get_capabilities_cached_nonempty b st c hc hne, ih,
          List.replicate_succ]

/-- Claim C1, amended: provided the backend's *first* capability query
returns a non-empty set, the backend is queried exactly once over the
instance's lifetime and every `get_capabilities` call returns that same set;
an empty first result is not retained by the truthiness test and causes the
backend to be queried again on a later call. -/
theorem get_capabilities_cached_once_of_nonempty (b : BackendBehavior)
    (st : NotifierState) (hcache : st.capabilities = none)
    (hne : b.capabilitiesAt st.capQueryCount ≠ []) (n : Nat) :
    (∀ r ∈ (iterate_get_capabilities b n st).1,
        r = b.capabilitiesAt st.capQueryCount) ∧
    (n ≠ 0 →
      (iterate_get_capabilities b n st).2.capQueryCount
        = st.capQueryCount + 1) := by
  cases n with
  | zero => simp [iterate_get_capabilities]
  | succ m =>
    have hfirst :
        get_capabilities b st
          = (b.capabilitiesAt st.capQueryCount,
             { st with capabilities := some (b.capabilitiesAt st.capQueryCount),
                       capQueryCount := st.capQueryCount + 1 }) := by
      simp [get_capabilities, pyFalsyCaps, hcache]
    have hrest := iterate_get_capabilities_cached b
      { st with capabilities := some (b.capabilitiesAt st.capQueryCount),
                capQueryCount := st.capQueryCount + 1 }
      (b.capabilitiesAt st.capQueryCount) rfl hne m
    constructor
    · intro r hr
      simp [iterate_get_capabilities, hfirst, hrest] at hr
      rcases hr with h | h
      · exact h
      · exact h.2
    · intro _
      simp [iterate_get_capabilities, hfirst, hrest]

/-- Witness for the amended claim C1: a backend constantly answering
`{buttons, sound}` is queried once over three calls, which all return that
set. -/
theorem get_capabilities_cached_once_witness :
    (initialState none).capabilities = none ∧
    (∀ r ∈ (iterate_get_capabilities
        { capabilitiesAt := fun _ => [Capability.buttons, Capability.sound]
          authResultAt := fun _ => Except.ok true
          sendResultAt := fun _ _ => Except.ok none } 3 (initialState none)).1,
        r = [Capability.buttons, Capability.sound]) ∧
    (iterate_get_capabilities
        { capabilitiesAt := fun _ => [Capability.buttons, Capability.sound]
          authResultAt := fun _ => Except.ok true
          sendResultAt := fun _ _ => Except.ok none } 3
        (initialState none)).2.capQueryCount = 1 :=
  ⟨rfl,
   (get_capabilities_cached_once_of_nonempty
      { capabilitiesAt := fun _ => [Capability.buttons, Capability.sound]
        authResultAt := fun _ => Except.ok true
        sendResultAt := fun _ _ => Except.ok none }
      (initialState none) rfl (by decide) 3).1,
   (get_capabilities_cached_once_of_nonempty
      { capabilitiesAt := fun _ => [Capability.buttons, Capability.sound]
        authResultAt := fun _ => Except.ok true
        sendResultAt := fun _ _ => Except.ok none }
      (initialState none) rfl (by decide) 3).2 (by decide)⟩

/-! ## Authorisation (`request_authorisation`, main.py lines 201-214) -/

/-- `DesktopNotifier.request_authorisation` (main.py lines 201-214):
`self._did_request_authorisation = True` happens *before*
`await self._impl.request_authorisation()`, so the flag is set whatever the
backend call does; the backend invocation itself is counted whether it
returns or raises. -/
def request_authorisation (b : BackendBehavior) (st : NotifierState) :
    Except BackendError Bool × NotifierState :=
  let st₁ := { st with didRequestAuthorisation := true }
  (b.authResultAt st₁.authCallCount,
   { st₁ with authCallCount := st₁.authCallCount + 1 })

/-! ## Sending (`send_notification` and `send`, main.py lines 220-289) -/

/-- The icon-defaulting step of `send_notification` (main.py lines 230-231):
`if not notification.icon: notification.icon = self.app_icon`.  `Icon`
values are truthy (the `Icon` class defines no falsiness), so the test holds
exactly when the icon is `None`. -/
def withDefaultIcon (st : NotifierState) (n : Notification) : Notification :=
  if n.icon = none then { n with icon := st.appIcon } else n

/-- Modelled from the spec: the identifier mutation performed by the
backend's `send` (spec section 4.1: "on success, mutates
`notification.identifier` to a backend-assigned value; … failures are
communicated by `identifier` remaining unset"). -/
def applySendResult (n : Notification) : Option String → Notification
  | some i => { n with identifier := some i }
  | none => n

/-- `DesktopNotifier.send_notification` (main.py lines 220-242): default the
icon, request authorisation if not already requested (an exception from that
backend call propagates), then invoke the backend's `send` regardless of the
authorisation verdict; the call returns the notification object itself. -/
def send_notification (b : BackendBehavior) (st : NotifierState)
    (n : Notification) : Except BackendError Notification × NotifierState :=
  let n₁ := withDefaultIcon st n
  let (authRes, st₁) :=
    if !st.didRequestAuthorisation then
      let (r, st') := request_authorisation b st
      (match r with
       | Except.ok _ => Except.ok ()
       | Except.error e => Except.error e, st')
    else (Except.ok (), st)
  match authRes with
  | Except.error e => (Except.error e, st₁)
  | Except.ok _ =>
    match b.sendResultAt st₁.sendCallCount n₁ with
    | Except.error e =>
      (Except.error e, { st₁ with sendCallCount := st₁.sendCallCount + 1 })
    | Except.ok ident =>
      (Except.ok (applySendResult n₁ ident),
       { st₁ with sendCallCount := st₁.sendCallCount + 1 })

/-- The keyword arguments of `DesktopNotifier.send` (main.py lines 244-258),
with the defaults of the Python signature. -/
structure SendArgs where
  title : String
  message : String
  urgency : Urgency := Urgency.Normal
  icon : Option Icon := none
  buttons : List Button := []
  replyField : Option ReplyField := none
  onClicked : Option Nat := none
  onDismissed : Option Nat := none
  attachment : Option Attachment := none
  sound : Option Sound := none
  thread : Option String := none
  timeout : Int := -1
deriving DecidableEq

/-- The `Notification(...)` construction inside `send` (main.py lines
275-288): all fields are passed through, the identifier starts unset. -/
def buildNotification (a : SendArgs) : Notification :=
  { title := a.title
    message := a.message
    urgency := a.urgency
    icon := a.icon
    buttons := a.buttons
    replyField := a.replyField
    onClicked := a.onClicked
    onDismissed := a.onDismissed
    attachment := a.attachment
    sound := a.sound
    thread := a.thread
    timeout := a.timeout
    identifier := none }

/-- `DesktopNotifier.send` (main.py lines 244-289): construct the
notification from the arguments and delegate to `send_notification`. -/
def send (b : BackendBehavior) (st : NotifierState) (a : SendArgs) :
    Except BackendError Notification × NotifierState :=
  send_notification b st (buildNotification a)

/-- How `send_notification` affects the authorisation state: afterwards the
flag is always set; the backend's `request_authorisation` is invoked exactly
once when the flag was clear and not at all when it was already set. -/
theorem send_notification_state_effect (b : BackendBehavior)
    (st : NotifierState) (n : Notification) :
    ((send_notification b st n).2).didRequestAuthorisation = true ∧
    (st.didRequestAuthorisation = true →
      ((send_notification b st n).2).authCallCount = st.authCallCount) ∧
    (st.didRequestAuthorisation = false →
      ((send_notification b st n).2).authCallCount = st.authCallCount + 1) := by
  cases hflag : st.didRequestAuthorisation with
  | true =>
    cases h : b.sendResultAt st.sendCallCount (withDefaultIcon st n) <;>
      simp [send_notification, hflag, h]
  | false =>
    cases ha : b.authResultAt st.authCallCount with
    | error e => simp [send_notification, request_authorisation, hflag, ha]
    | ok v =>
      cases h : b.sendResultAt st.sendCallCount (withDefaultIcon st n) <;>
        simp [send_notification, request_authorisation, hflag, ha, h]

/-- When the backend's calls succeed, `send_notification` returns
`Except.ok` carrying the icon-defaulted notification with the backend's
identifier verdict applied. -/
theorem send_notification_ok (b : BackendBehavior) (st : NotifierState)
    (n : Notification) (v : Bool) (r : Option String)
    (hauth : b.authResultAt st.authCallCount = Except.ok v)
    (hsend : b.sendResultAt st.sendCallCount (withDefaultIcon st n)
      = Except.ok r) :
    (send_notification b st n).1
      = Except.ok (applySendResult (withDefaultIcon st n) r) := by
  cases hflag : st.didRequestAuthorisation with
  | true => simp [send_notification, hflag, hsend]
  | false =>
    simp [send_notification, request_authorisation, hflag, hauth, hsend]

/-- Claim C9: `request_authorisation` sets `_did_request_authorisation`
before awaiting the backend, so whatever the backend call does (grant, deny
or raise — `b` is arbitrary), the flag is set afterwards and a subsequent
`send_notification` performs no further backend authorisation call. -/
theorem auth_flag_set_before_backend_call (b : BackendBehavior)
    (st : NotifierState) :
    ((request_authorisation b st).2).didRequestAuthorisation = true ∧
    ∀ n : Notification,
      ((send_notification b ((request_authorisation b st).2) n).2).authCallCount
        = ((request_authorisation b st).2).authCallCount :=
  ⟨rfl, fun n =>
    (send_notification_state_effect b ((request_authorisation b st).2) n).2.1 rfl⟩

/-- Claim C3: `send` never raises when the backend honours the contract
(its calls return rather than throw for expected conditions): it yields
`Except.ok` carrying exactly the notification it constructed from the
arguments — icon-defaulted — whose identifier is precisely the backend's
verdict: the assigned identifier on success, still unset on expected
non-delivery (`r = none`). -/
theorem send_returns_notification_with_backend_identifier
    (b : BackendBehavior) (st : NotifierState) (a : SendArgs)
    (r : Option String)
    (hauth : ∃ v, b.authResultAt st.authCallCount = Except.ok v)
    (hsend : b.sendResultAt st.sendCallCount
        (withDefaultIcon st (buildNotification a)) = Except.ok r) :
    (send b st a).1
      = Except.ok (applySendResult (withDefaultIcon st (buildNotification a)) r) ∧
    (applySendResult (withDefaultIcon st (buildNotification a)) r).identifier
      = r := by
  obtain ⟨v, hv⟩ := hauth
  refine ⟨send_notification_ok b st (buildNotification a) v r hv hsend, ?_⟩
  cases r with
  | none =>
    simp only [applySendResult]
    unfold withDefaultIcon
    split <;> simp [buildNotification]
  | some i => simp [applySendResult]

/-- A contract-honouring backend that grants authorisation and assigns the
identifier `"id-1"` to every notification. -/
def okBackend : BackendBehavior :=
  { capabilitiesAt := fun _ => [Capability.buttons]
    authResultAt := fun _ => Except.ok true
    sendResultAt := fun _ _ => Except.ok (some "id-1") }

/-- Witness for claim C3 at a concrete send. -/
theorem send_returns_notification_witness :
    (send okBackend (initialState none)
        { title := "Reminder", message := "Meeting in 5 minutes" }).1
      = Except.ok (applySendResult
          (withDefaultIcon (initialState none)
            (buildNotification
              { title := "Reminder", message := "Meeting in 5 minutes" }))
          (some "id-1")) ∧
    (applySendResult
        (withDefaultIcon (initialState none)
          (buildNotification
            { title := "Reminder", message := "Meeting in 5 minutes" }))
        (some "id-1")).identifier = some "id-1" :=
  send_returns_notification_with_backend_identifier okBackend
    (initialState none) { title := "Reminder", message := "Meeting in 5 minutes" }
    (some "id-1") ⟨true, rfl⟩ rfl

/-- Claim C7: `send_notification` defaults the icon to the instance's
`app_icon` exactly when the notification carries no icon, leaves a given
icon unchanged, and — apart from the backend-assigned identifier — modifies
no other field of the notification it returns. -/
theorem send_notification_icon_defaulting (b : BackendBehavior)
    (st : NotifierState) (n : Notification) (r : Option String)
    (hauth : ∃ v, b.authResultAt st.authCallCount = Except.ok v)
    (hsend : b.sendResultAt st.sendCallCount (withDefaultIcon st n)
      = Except.ok r) :
    (send_notification b st n).1
      = Except.ok (applySendResult (withDefaultIcon st n) r) ∧
    (n.icon = none → withDefaultIcon st n = { n with icon := st.appIcon }) ∧
    (n.icon ≠ none → withDefaultIcon st n = n) ∧
    ((applySendResult (withDefaultIcon st n) r).title = n.title ∧
     (applySendResult (withDefaultIcon st n) r).message = n.message ∧
     (applySendResult (withDefaultIcon st n) r).urgency = n.urgency ∧
     (applySendResult (withDefaultIcon st n) r).buttons = n.buttons ∧
     (applySendResult (withDefaultIcon st n) r).replyField = n.replyField ∧
     (applySendResult (withDefaultIcon st n) r).onClicked = n.onClicked ∧
     (applySendResult (withDefaultIcon st n) r).onDismissed = n.onDismissed ∧
     (applySendResult (withDefaultIcon st n) r).attachment = n.attachment ∧
     (applySendResult (withDefaultIcon st n) r).sound = n.sound ∧
     (applySendResult (withDefaultIcon st n) r).thread = n.thread ∧
     (applySendResult (withDefaultIcon st n) r).timeout = n.timeout) := by
  obtain ⟨v, hv⟩ := hauth
  refine ⟨send_notification_ok b st n v r hv hsend, ?_, ?_, ?_⟩
  · intro h; simp [withDefaultIcon, h]
  · intro h; simp [withDefaultIcon, h]
  · cases hn : n.icon <;> cases r <;>
      simp [applySendResult, withDefaultIcon, hn]

/-- Witness for claim C7: a notification without an icon, sent on an
instance whose default icon is the theme icon `"app"`. -/
theorem send_notification_icon_defaulting_witness :
    (send_notification okBackend (initialState (some (Icon.name "app")))
        { title := "T", message := "M" }).1
      = Except.ok (applySendResult
          (withDefaultIcon (initialState (some (Icon.name "app")))
            { title := "T", message := "M" }) (some "id-1")) ∧
    withDefaultIcon (initialState (some (Icon.name "app")))
        { title := "T", message := "M" }
      = { ({ title := "T", message := "M" } : Notification) with
          icon := some (Icon.name "app") } :=
  ⟨(send_notification_icon_defaulting okBackend
      (initialState (some (Icon.name "app"))) { title := "T", message := "M" }
      (some "id-1") ⟨true, rfl⟩ rfl).1,
   (send_notification_icon_defaulting okBackend
      (initialState (some (Icon.name "app"))) { title := "T", message := "M" }
      (some "id-1") ⟨true, rfl⟩ rfl).2.1 rfl⟩

/-! ## Sequences of sends (claim C5) -/

/-- One call of the sending API: either `send` with keyword arguments or
`send_notification` with a pre-built notification. -/
inductive SendCall where
  | sendCall (a : SendArgs)
  | sendNotificationCall (n : Notification)
deriving DecidableEq

/-- The state transition of one sending call (results discarded). -/
def runSendCall (b : BackendBehavior) (st : NotifierState) :
    SendCall → NotifierState
  | SendCall.sendCall a => (send b st a).2
  | SendCall.sendNotificationCall n => (send_notification b st n).2

/-- Run a sequence of sending calls on one instance. -/
def runSendCalls (b : BackendBehavior) :
    List SendCall → NotifierState → NotifierState
  | [], st => st
  | c :: cs, st => runSendCalls b cs (runSendCall b st c)

/-- The authorisation effect of a single sending call, of either kind. -/
theorem runSendCall_state_effect (b : BackendBehavior) (st : NotifierState)
    (c : SendCall) :
    (runSendCall b st c).didRequestAuthorisation = true ∧
    (st.didRequestAuthorisation = true →
      (runSendCall b st c).authCallCount = st.authCallCount) ∧
    (st.didRequestAuthorisation = false →
      (runSendCall b st c).authCallCount = st.authCallCount + 1) := by
  cases c with
  | sendCall a => exact send_notification_state_effect b st (buildNotification a)
  | sendNotificationCall n => exact send_notification_state_effect b st n

/-- Once the authorisation flag is set, no sending call ever invokes the
backend's `request_authorisation` again, and the flag stays set. -/
theorem runSendCalls_no_auth_of_flag (b : BackendBehavior)
    (calls : List SendCall) :
    ∀ st : NotifierState, st.didRequestAuthorisation = true →
      (runSendCalls b calls st).authCallCount = st.authCallCount ∧
      (runSendCalls b calls st).didRequestAuthorisation = true := by
  induction calls with
  | nil => intro st h; exact ⟨rfl, h⟩
  | cons c cs ih =>
    intro st h
    have hc := runSendCall_state_effect b st c
    have hrest := ih (runSendCall b st c) hc.1
    refine ⟨?_, ?_⟩
    · show (runSendCalls b cs (runSendCall b st c)).authCallCount = st.authCallCount
      rw [hrest.1, hc.2.1 h]
    · exact hrest.2

/-- Claim C5: across any sequence of `send` / `send_notification` calls on a
single instance, the backend's `request_authorisation` is invoked at most
once via sending: never when authorisation was already requested explicitly
beforehand, and exactly once — during the first send — when it was not. -/
theorem backend_auth_requested_at_most_once_via_sends (b : BackendBehavior)
    (st : NotifierState) (calls : List SendCall) :
    (st.didRequestAuthorisation = true →
      (runSendCalls b calls st).authCallCount = st.authCallCount) ∧
    (st.didRequestAuthorisation = false → calls ≠ [] →
      (runSendCalls b calls st).authCallCount = st.authCallCount + 1) := by
  constructor
  · intro h
    exact (runSendCalls_no_auth_of_flag b calls st h).1
  · intro h hne
    cases calls with
    | nil => exact absurd rfl hne
    | cons c cs =>
      have hc := runSendCall_state_effect b st c
      have hrest := runSendCalls_no_auth_of_flag b cs (runSendCall b st c) hc.1
      show (runSendCalls b cs (runSendCall b st c)).authCallCount
        = st.authCallCount + 1
      rw [hrest.1, hc.2.2 h]

/-- Witness for claim C5: two successive sends on a fresh instance invoke
the backend's authorisation exactly once. -/
theorem backend_auth_requested_at_most_once_witness :
    (initialState none).didRequestAuthorisation = false ∧
    (runSendCalls okBackend
        [SendCall.sendCall { title := "A", message := "B" },
         SendCall.sendCall { title := "C", message := "D" }]
        (initialState none)).authCallCount
      = (initialState none).authCallCount + 1 :=
  ⟨rfl,
   (backend_auth_requested_at_most_once_via_sends okBackend (initialState none)
      [SendCall.sendCall { title := "A", message := "B" },
       SendCall.sendCall { title := "C", message := "D" }]).2 rfl (by simp)⟩

/-! ## Sync/async bridge (`_run_coro_sync`, main.py lines 178-189, and
`send_sync`, lines 291-335) -/

/-- What a synchronous bridge call does for its caller.  `completes v`: the
call returns `v`.  `hardError`: an exception is raised to the caller.
`blocksForever`: the call never returns — this is the fate of
`future.result()` when the waiting thread is the only thread driving the
loop that must complete the future. -/
inductive SyncOutcome (T : Type) where
  | completes (val : T)
  | hardError
  | blocksForever
deriving DecidableEq

/-- `DesktopNotifier._run_coro_sync` (main.py lines 178-189).  When the
private loop is running, the coroutine is submitted with
`asyncio.run_coroutine_threadsafe` and the caller blocks on
`future.result()`: if the caller is itself executing inside that private
loop (`callerInOwnLoop`), the loop's only thread is now blocked and the
future can never complete, so the call blocks forever; from any other
thread the future completes and its value is returned.  When the loop is
not running, `run_until_complete` drives the coroutine to completion on the
calling thread.  No branch raises. -/
def run_coro_sync {T : Type} (loopRunning callerInOwnLoop : Bool)
    (coroResult : T) : SyncOutcome T :=
  if loopRunning then
    if callerInOwnLoop then SyncOutcome.blocksForever
    else SyncOutcome.completes coroResult
  else
    SyncOutcome.completes coroResult

/-- Claim C4 is false on the code: invoked from within the private execution
context it owns (`loopRunning = true`, `callerInOwnLoop = true`),
`_run_coro_sync` submits the coroutine to the already-running loop and
blocks forever on `future.result()`; no hard error is raised to the
caller. -/
theorem run_coro_sync_reentrant_not_hard_error :
    run_coro_sync true true (0 : Nat) = SyncOutcome.blocksForever ∧
    run_coro_sync true true (0 : Nat) ≠ SyncOutcome.hardError := by
  constructor
  · rfl
  · decide

/-- Claim C4, amended: a synchronous-bridge call issued from within the
private execution context the instance owns is *not* detected: the code
submits the coroutine to its own already-running loop and blocks forever
waiting on the future, reporting no error. -/
theorem run_coro_sync_reentrant_blocks (T : Type) (v : T) :
    run_coro_sync true true v = SyncOutcome.blocksForever := rfl

/-- `DesktopNotifier.send_sync` (main.py lines 291-335): emits a
deprecation warning (no data flow), builds the *same* coroutine `send`
would produce for the same arguments — it literally calls `self.send(...)`
with every argument passed through — and hands it to `_run_coro_sync`. -/
def send_sync (b : BackendBehavior) (callerInOwnLoop : Bool)
    (st : NotifierState) (a : SendArgs) :
    SyncOutcome (Except BackendError Notification × NotifierState) :=
  run_coro_sync st.loopRunning callerInOwnLoop (send b st a)

/-- Claim C6: from any caller that is not inside the instance's private
loop, `send_sync` completes — whether or not that loop is already running
on another thread — and yields exactly the result (and state transition)
of the asynchronous `send` on the same arguments. -/
theorem send_sync_refines_send (b : BackendBehavior) (st : NotifierState)
    (a : SendArgs) (callerInOwnLoop : Bool)
    (h : callerInOwnLoop = false) :
    send_sync b callerInOwnLoop st a = SyncOutcome.completes (send b st a) := by
  subst h
  unfold send_sync run_coro_sync
  cases st.loopRunning <;> rfl

/-- Witness for claim C6: a concrete synchronous send from an outside
thread completes with the asynchronous result. -/
theorem send_sync_refines_send_witness :
    send_sync okBackend false (initialState none)
        { title := "Reminder", message := "Meeting in 5 minutes" }
      = SyncOutcome.completes (send okBackend (initialState none)
          { title := "Reminder", message := "Meeting in 5 minutes" }) :=
  send_sync_refines_send okBackend (initialState none)
    { title := "Reminder", message := "Meeting in 5 minutes" } false rfl

/-! ## Deprecated `app_icon` coercion (`__init__`, main.py lines 148-165)

The constructor tests `parse.urlparse(app_icon).hostname != ""` on string
input.  `urllib.parse` is external library code; its `hostname` accessor is
modelled here after CPython's `urlsplit`/`_hostinfo`: optional scheme
stripping, netloc extraction after a leading `//`, the part after the last
`@`, bracketed-IPv6 or up-to-colon host, lowercased — and `None` (never the
empty string) when no host is present. -/

/-- Characters CPython's `urlsplit` removes from any URL before parsing
(tab, carriage return, line feed). -/
def removeUnsafeBytes (l : List Char) : List Char :=
  l.filter (fun c => !(c = '\t' || c = '\r' || c = '\n'))

/-- Splits a character list at the first occurrence of `sep`, or `none`
when `sep` does not occur. -/
def splitOnFirst (sep : Char) : List Char → Option (List Char × List Char)
  | [] => none
  | c :: cs =>
    if c = sep then some ([], cs)
    else
      match splitOnFirst sep cs with
      | some (pre, post) => some (c :: pre, post)
      | none => none

/-- The characters admissible in a URL scheme (`scheme_chars` in
`urllib.parse`): ASCII letters, digits, `+`, `-`, `.`. -/
def schemeChar (c : Char) : Bool :=
  c.isAlpha || c.isDigit || c = '+' || c = '-' || c = '.'

/-- Scheme stripping in `urlsplit`: when the text before the first `:` is
non-empty, starts with an ASCII letter and consists of scheme characters,
everything through that colon is removed. -/
def stripScheme (url : List Char) : List Char :=
  match splitOnFirst ':' url with
  | some (c :: pre, post) =>
    if c.isAlpha && (c :: pre).all schemeChar then post else url
  | _ => url

/-- `_splitnetloc`: the netloc runs until the first of `/`, `?`, `#`. -/
def takeUntilNetlocDelim : List Char → List Char
  | [] => []
  | c :: cs =>
    if c = '/' || c = '?' || c = '#' then []
    else c :: takeUntilNetlocDelim cs

/-- The netloc of a (scheme-stripped) URL: present only after a leading
`//`. -/
def netlocOf (l : List Char) : List Char :=
  match l with
  | c₁ :: c₂ :: r =>
    if c₁ = '/' && c₂ = '/' then takeUntilNetlocDelim r else []
  | _ => []

/-- `netloc.rpartition('@')`: the host information is whatever follows the
last `@` (the whole netloc when there is none). -/
def afterLastAt (l : List Char) : List Char :=
  (l.reverse.takeWhile (fun c => c ≠ '@')).reverse

/-- `_hostinfo`: a bracketed (IPv6) host is read up to `]` after the first
`[`; otherwise the host is everything before the first `:`. -/
def hostFromHostinfo (hostinfo : List Char) : List Char :=
  match splitOnFirst '[' hostinfo with
  | some (_, bracketed) => bracketed.takeWhile (fun c => c ≠ ']')
  | none => hostinfo.takeWhile (fun c => c ≠ ':')

/-- The `hostname` accessor on a parsed URL: the extracted host, lowercased;
`None` when it is empty. -/
def hostnameFromUrl (url : List Char) : Option String :=
  let host := hostFromHostinfo (afterLastAt (netlocOf (stripScheme url)))
  if host.isEmpty then none else some (String.mk (host.map Char.toLower))

/-- `parse.urlparse(s).hostname` as read by `DesktopNotifier.__init__`
(main.py line 154). -/
def urlparse_hostname (s : String) : Option String :=
  hostnameFromUrl (removeUnsafeBytes s.data)

/-- The four shapes the `app_icon` constructor argument can take
(`Path | str | Icon | None`). -/
inductive AppIconArg where
  | strArg (s : String)
  | pathArg (p : String)
  | iconArg (i : Icon)
  | noneArg
deriving DecidableEq

/-- The deprecated `app_icon` coercion in `DesktopNotifier.__init__`
(main.py lines 148-165): a string becomes `Icon(uri=...)` when
`urlparse(app_icon).hostname != ""` and `Icon(name=...)` otherwise; a
`Path` becomes `Icon(path=...)`; an `Icon` or `None` is kept as given. -/
def coerce_app_icon : AppIconArg → Option Icon
  | AppIconArg.strArg s =>
    if urlparse_hostname s ≠ some "" then some (Icon.uri s)
    else some (Icon.name s)
  | AppIconArg.pathArg p => some (Icon.path p)
  | AppIconArg.iconArg i => some i
  | AppIconArg.noneArg => none

/-- `splitOnFirst` finds nothing when the separator does not occur. -/
theorem splitOnFirst_eq_none_of_not_mem (sep : Char) (l : List Char)
    (h : sep ∉ l) : splitOnFirst sep l = none := by
  induction l with
  | nil => rfl
  | cons c cs ih =>
    have hc : c ≠ sep := fun hcc => h (hcc ▸ List.mem_cons_self c cs)
    have hcs : sep ∉ cs := fun hm => h (List.mem_cons_of_mem c hm)
    simp [splitOnFirst, hc, ih hcs]

/-- A URL without a slash has no netloc. -/
theorem netlocOf_eq_nil_of_no_slash (l : List Char)
    (h : ∀ c ∈ l, c ≠ '/') : netlocOf l = [] := by
  cases l with
  | nil => rfl
  | cons c₁ t =>
    cases t with
    | nil => rfl
    | cons c₂ r =>
      have hc : c₁ ≠ '/' := h c₁ (List.mem_cons_self _ _)
      simp [netlocOf, hc]

/-- A plain freedesktop theme name — no colon, no slash — parses to
hostname `None`. -/
theorem urlparse_hostname_plain_name (s : String)
    (h : ∀ c ∈ s.data, c ≠ ':' ∧ c ≠ '/') :
    urlparse_hostname s = none := by
  have hsub : ∀ c ∈ removeUnsafeBytes s.data, c ≠ ':' ∧ c ≠ '/' := by
    intro c hc
    exact h c (List.mem_of_mem_filter hc)
  have hcolon : ':' ∉ removeUnsafeBytes s.data := by
    intro hm
    exact (hsub ':' hm).1 rfl
  have hstrip : stripScheme (removeUnsafeBytes s.data)
      = removeUnsafeBytes s.data := by
    unfold stripScheme
    rw [splitOnFirst_eq_none_of_not_mem ':' _ hcolon]
  have hnet : netlocOf (removeUnsafeBytes s.data) = [] :=
    netlocOf_eq_nil_of_no_slash _ (fun c hc => (hsub c hc).2)
  unfold urlparse_hostname hostnameFromUrl
  rw [hstrip, hnet]
  rfl

/-- Claim C10: a string `app_icon` is coerced to `Icon(uri=app_icon)`
exactly when `urlparse(app_icon).hostname` differs from the empty string —
which covers every plain theme-name string, whose parsed hostname is `None`
— and to `Icon(name=app_icon)` only when the parsed hostname equals the
empty string; a `Path` argument is always coerced to `Icon(path=...)`. -/
theorem app_icon_string_coercion :
    (∀ s : String,
      (coerce_app_icon (AppIconArg.strArg s) = some (Icon.uri s) ↔
        urlparse_hostname s ≠ some "") ∧
      (coerce_app_icon (AppIconArg.strArg s) = some (Icon.name s) →
        urlparse_hostname s = some "")) ∧
    (∀ s : String, (∀ c ∈ s.data, c ≠ ':' ∧ c ≠ '/') →
      urlparse_hostname s = none ∧
      coerce_app_icon (AppIconArg.strArg s) = some (Icon.uri s)) ∧
    (∀ p : String,
      coerce_app_icon (AppIconArg.pathArg p) = some (Icon.path p)) := by
  refine ⟨?_, ?_, ?_⟩
  · intro s
    by_cases h : urlparse_hostname s = some ""
    · refine ⟨?_, fun _ => h⟩
      simp [coerce_app_icon, h]
    · refine ⟨?_, ?_⟩
      · simp [coerce_app_icon, h]
      · intro hc
        simp [coerce_app_icon, h] at hc
  · intro s hs
    have hn := urlparse_hostname_plain_name s hs
    refine ⟨hn, ?_⟩
    simp [coerce_app_icon, hn]
  · intro p
    rfl

/-- Witness for claim C10 on the theme name `"firefox"` and a concrete
path. -/
theorem app_icon_string_coercion_witness :
    (∀ c ∈ ("firefox" : String).data, c ≠ ':' ∧ c ≠ '/') ∧
    urlparse_hostname "firefox" = none ∧
    coerce_app_icon (AppIconArg.strArg "firefox")
      = some (Icon.uri "firefox") ∧
    coerce_app_icon (AppIconArg.pathArg "/icons/app.png")
      = some (Icon.path "/icons/app.png") :=
  ⟨by decide,
   (app_icon_string_coercion.2.1 "firefox" (by decide)).1,
   (app_icon_string_coercion.2.1 "firefox" (by decide)).2,
   app_icon_string_coercion.2.2 "/icons/app.png"⟩
